import Mathlib

/-!
Shallow embedding of the Aero-Calculator viewport and mesh-ingestion code
(`src/editor_window.py`, `src/model_loader.py`).  Machine floating-point
numbers are modelled by `ℚ`; every numeric literal appearing in the source
(`0.1`, `100.0`, `5.0`, `240.0`, `0.01`, `2.0`) is exactly representable,
so the rational model computes the same values the float code computes on
the inputs used below.
-/

namespace Aero

/-- A 3-component vector over `ℚ`, modelling the numpy length-3 float
arrays used throughout `editor_window.py`. -/
structure Vec3 where
  x : ℚ
  y : ℚ
  z : ℚ
deriving DecidableEq, Repr

namespace Vec3

instance : Zero Vec3 := ⟨⟨0, 0, 0⟩⟩

instance : Add Vec3 := ⟨fun a b => ⟨a.x + b.x, a.y + b.y, a.z + b.z⟩⟩

instance : Sub Vec3 := ⟨fun a b => ⟨a.x - b.x, a.y - b.y, a.z - b.z⟩⟩

instance : Neg Vec3 := ⟨fun a => ⟨-a.x, -a.y, -a.z⟩⟩

/-- Scalar multiplication, modelling numpy's `scalar * array`. -/
instance : SMul ℚ Vec3 := ⟨fun q a => ⟨q * a.x, q * a.y, q * a.z⟩⟩

/-- `np.dot` on 3-vectors. -/
def dot (a b : Vec3) : ℚ := a.x * b.x + a.y * b.y + a.z * b.z

/-- `np.cross` on 3-vectors. -/
def cross (a b : Vec3) : Vec3 :=
  ⟨a.y * b.z - a.z * b.y, a.z * b.x - a.x * b.z, a.x * b.y - a.y * b.x⟩

/-- Squared euclidean norm; `np.linalg.norm(v)` is `Real.sqrt (normSq v)`,
and every comparison the source makes against a norm is reproduced below
through the equivalent comparison of `normSq` against a square. -/
def normSq (a : Vec3) : ℚ := a.x * a.x + a.y * a.y + a.z * a.z

theorem zero_def : (0 : Vec3) = ⟨0, 0, 0⟩ := rfl

theorem add_def (a b : Vec3) : a + b = ⟨a.x + b.x, a.y + b.y, a.z + b.z⟩ := rfl

theorem sub_def (a b : Vec3) : a - b = ⟨a.x - b.x, a.y - b.y, a.z - b.z⟩ := rfl

theorem smul_def (q : ℚ) (a : Vec3) : q • a = ⟨q * a.x, q * a.y, q * a.z⟩ := rfl

@[simp] theorem zero_x : (0 : Vec3).x = 0 := rfl

@[simp] theorem zero_y : (0 : Vec3).y = 0 := rfl

@[simp] theorem zero_z : (0 : Vec3).z = 0 := rfl

@[simp] theorem add_x (a b : Vec3) : (a + b).x = a.x + b.x := rfl

@[simp] theorem add_y (a b : Vec3) : (a + b).y = a.y + b.y := rfl

@[simp] theorem add_z (a b : Vec3) : (a + b).z = a.z + b.z := rfl

@[simp] theorem sub_x (a b : Vec3) : (a - b).x = a.x - b.x := rfl

@[simp] theorem sub_y (a b : Vec3) : (a - b).y = a.y - b.y := rfl

@[simp] theorem sub_z (a b : Vec3) : (a - b).z = a.z - b.z := rfl

@[simp] theorem neg_x (a : Vec3) : (-a).x = -a.x := rfl

@[simp] theorem neg_y (a : Vec3) : (-a).y = -a.y := rfl

@[simp] theorem neg_z (a : Vec3) : (-a).z = -a.z := rfl

@[simp] theorem smul_x (q : ℚ) (a : Vec3) : (q • a).x = q * a.x := rfl

@[simp] theorem smul_y (q : ℚ) (a : Vec3) : (q • a).y = q * a.y := rfl

@[simp] theorem smul_z (q : ℚ) (a : Vec3) : (q • a).z = q * a.z := rfl

theorem normSq_nonneg (a : Vec3) : 0 ≤ normSq a := by
  have hx := mul_self_nonneg a.x
  have hy := mul_self_nonneg a.y
  have hz := mul_self_nonneg a.z
  unfold normSq; linarith

theorem normSq_pos_iff (a : Vec3) : 0 < normSq a ↔ a ≠ 0 := by
  constructor
  · intro h hz
    have h0 : normSq (0 : Vec3) = 0 := by
      rw [zero_def]; norm_num [normSq]
    rw [hz, h0] at h
    exact lt_irrefl 0 h
  · intro h
    rcases lt_or_eq_of_le (normSq_nonneg a) with h' | h'
    · exact h'
    · exfalso
      apply h
      unfold normSq at h'
      have hx : a.x = 0 := by
        nlinarith [mul_self_nonneg a.x, mul_self_nonneg a.y, mul_self_nonneg a.z]
      have hy : a.y = 0 := by
        nlinarith [mul_self_nonneg a.x, mul_self_nonneg a.y, mul_self_nonneg a.z]
      have hz2 : a.z = 0 := by
        nlinarith [mul_self_nonneg a.x, mul_self_nonneg a.y, mul_self_nonneg a.z]
      rw [zero_def]
      cases a
      simp only [Vec3.mk.injEq]
      exact ⟨hx, hy, hz2⟩

end Vec3

/-! ## Camera zoom (`Viewport.wheelEvent`) -/

/-- `Viewport.__init__`: `self.min_zoom = 0.1`. -/
def min_zoom : ℚ := 1 / 10

/-- `Viewport.__init__`: `self.max_zoom = 100.0`. -/
def max_zoom : ℚ := 100

/-- `Viewport.wheelEvent`: given the current zoom and the event's
`angleDelta().y()`, computes `zoom_factor = angleDelta/240.0`,
`new_zoom = zoom * (1 - zoom_factor)`, then
`self.zoom = max(self.min_zoom, min(self.max_zoom, new_zoom))`. -/
def wheelEvent (zoom delta : ℚ) : ℚ :=
  let zoom_factor := delta / 240
  let new_zoom := zoom * (1 - zoom_factor)
  max min_zoom (min max_zoom new_zoom)

/-- A finite sequence of scroll events applied in arrival order. -/
def scrollSeq (z : ℚ) (ds : List ℚ) : ℚ := ds.foldl wheelEvent z

theorem wheelEvent_bounds (z d : ℚ) :
    min_zoom ≤ wheelEvent z d ∧ wheelEvent z d ≤ max_zoom := by
  constructor
  · exact le_max_left _ _
  · apply max_le
    · norm_num [min_zoom, max_zoom]
    · exact min_le_left _ _

theorem scrollSeq_bounds (ds : List ℚ) (z : ℚ)
    (h1 : min_zoom ≤ z) (h2 : z ≤ max_zoom) :
    min_zoom ≤ scrollSeq z ds ∧ scrollSeq z ds ≤ max_zoom := by
  induction ds generalizing z with
  | nil => exact ⟨h1, h2⟩
  | cons d t ih =>
      have hb := wheelEvent_bounds z d
      exact ih (wheelEvent z d) hb.1 hb.2

/-- C6: each scroll event multiplies the current zoom by
`(1 - delta/240)` and clamps the result into `[min_zoom, max_zoom]`, so
starting from any zoom in `[min_zoom, max_zoom]` the zoom stays in
`[min_zoom, max_zoom]` after any finite sequence of scroll events. -/
theorem c6_zoom_multiplicative_and_clamped (z : ℚ) (ds : List ℚ)
    (h1 : min_zoom ≤ z) (h2 : z ≤ max_zoom) :
    (∀ zc d, wheelEvent zc d =
      max min_zoom (min max_zoom (zc * (1 - d / 240)))) ∧
    min_zoom ≤ scrollSeq z ds ∧ scrollSeq z ds ≤ max_zoom := by
  refine ⟨fun zc d => rfl, ?_, ?_⟩
  · exact (scrollSeq_bounds ds z h1 h2).1
  · exact (scrollSeq_bounds ds z h1 h2).2

/-- Witness for C6 at the source's default zoom 15.0 and a concrete
scroll sequence. -/
theorem c6_zoom_multiplicative_and_clamped_witness :
    min_zoom ≤ (15 : ℚ) ∧ (15 : ℚ) ≤ max_zoom ∧
    ((∀ zc d, wheelEvent zc d =
        max min_zoom (min max_zoom (zc * (1 - d / 240)))) ∧
      min_zoom ≤ scrollSeq 15 [240, -480, 120] ∧
      scrollSeq 15 [240, -480, 120] ≤ max_zoom) := by
  refine ⟨by norm_num [min_zoom], by norm_num [max_zoom], ?_⟩
  exact c6_zoom_multiplicative_and_clamped 15 [240, -480, 120]
    (by norm_num [min_zoom]) (by norm_num [max_zoom])

/-! ## Transform-gizmo axis picking
(`Viewport.check_gizmo_pick`, `Viewport.point_line_distance`) -/

/-- The three gizmo axes, in the source's enumeration order `x, y, z`
(Python dicts iterate in insertion order). -/
inductive Axis where
  | x
  | y
  | z
deriving DecidableEq, Repr

/-- The world direction of each axis (`np.array([1,0,0])` etc.). -/
def axisDir : Axis → Vec3
  | Axis.x => ⟨1, 0, 0⟩
  | Axis.y => ⟨0, 1, 0⟩
  | Axis.z => ⟨0, 0, 1⟩

/-- `Viewport.point_line_distance(ray_start, ray_dir, line_start, line_end)`.
The source normalizes `line_dir = (line_end - line_start) / ‖line_end - line_start‖`
with a floating sqrt; at every call site of the program the segment is
`obj_pos .. obj_pos + axis_dir * 2.0` whose length is exactly `2.0`, so the
exact length is passed here as `line_length`.  The returned value is
`|np.dot(np.cross(ray_dir, line_dir), line_start - ray_start)|` — note this
is a quantity of the two infinite lines (scaled by the sine of the angle
between them), not a point-to-segment distance. -/
def point_line_distance (ray_start ray_dir line_start line_end : Vec3)
    (line_length : ℚ) : ℚ :=
  let line_dir := (1 / line_length) • (line_end - line_start)
  |Vec3.dot (Vec3.cross ray_dir line_dir) (line_start - ray_start)|

/-- The distance the source computes for one axis inside
`Viewport.check_gizmo_pick`: segment `obj_pos .. obj_pos + axis_dir * 2.0`
(exact length 2). -/
def gizmoAxisDist (ray_start ray_dir obj_pos : Vec3) (a : Axis) : ℚ :=
  point_line_distance ray_start ray_dir obj_pos
    (obj_pos + (2 : ℚ) • axisDir a) 2

/-- The axis-selection loop of `Viewport.check_gizmo_pick`: iterate over
`x, y, z` with `closest_axis = None`, `min_distance = 0.1`, replacing the
candidate whenever the axis distance is strictly below the current
minimum. -/
def check_gizmo_axes (ray_start ray_dir obj_pos : Vec3) : Option Axis :=
  ([Axis.x, Axis.y, Axis.z].foldl
    (fun st a =>
      if gizmoAxisDist ray_start ray_dir obj_pos a < st.2 then
        (some a, gizmoAxisDist ray_start ray_dir obj_pos a)
      else st)
    ((none : Option Axis), 1 / 10)).1

/-- The true squared distance between the point at parameter `t` on the
cursor ray and the point at parameter `u` on a segment.  This follows the
spec's words ("point-to-line-segment distance between the ray and each
candidate axis segment"): the ray/segment distance is under a threshold
`c` exactly when some parameter pair gives a squared distance under `c²`.
It is the claim-side definition used to refute C5's characterization of
what the code computes. -/
def raySegPointDistSq (ray_start ray_dir line_start line_end : Vec3)
    (t u : ℚ) : ℚ :=
  Vec3.normSq ((ray_start + t • ray_dir) -
    (line_start + u • (line_end - line_start)))

/-- Concrete ray used to refute C5: origin `(-5, 1, 0)`, direction
`(1, 0, 0)` (a unit vector, as produced by `get_ray_from_mouse`). -/
def c5RayStart : Vec3 := ⟨-5, 1, 0⟩

def c5RayDir : Vec3 := ⟨1, 0, 0⟩

/-- C5 is false as stated: the code does not compute a point-to-segment
distance.  For the ray from `(-5,1,0)` along `(1,0,0)` and gizmo origin
`(0,0,0)`, the ray touches the Y-axis segment (squared distance `0` at
ray parameter `5`, segment parameter `1/2`) while every point of the
X-axis segment and of the Z-axis segment is at squared distance `≥ 1`
from every ray point (far beyond the threshold `0.1`), so the claim
requires the pick to be `y`; the code picks `x`, because its formula
returns `0` for any axis parallel to the ray. -/
theorem c5_counterexample :
    check_gizmo_axes c5RayStart c5RayDir ⟨0, 0, 0⟩ = some Axis.x ∧
    raySegPointDistSq c5RayStart c5RayDir ⟨0, 0, 0⟩ ⟨0, 2, 0⟩ 5 (1 / 2) = 0 ∧
    (∀ t u : ℚ, 0 ≤ u → u ≤ 1 →
      1 ≤ raySegPointDistSq c5RayStart c5RayDir ⟨0, 0, 0⟩ ⟨2, 0, 0⟩ t u) ∧
    (∀ t u : ℚ, 0 ≤ u → u ≤ 1 →
      1 ≤ raySegPointDistSq c5RayStart c5RayDir ⟨0, 0, 0⟩ ⟨0, 0, 2⟩ t u) := by
  refine ⟨?_, ?_, ?_, ?_⟩
  · simp only [check_gizmo_axes, gizmoAxisDist, point_line_distance,
      List.foldl, c5RayStart, c5RayDir, axisDir, Vec3.dot, Vec3.cross,
      Vec3.add_x, Vec3.add_y, Vec3.add_z, Vec3.sub_x, Vec3.sub_y,
      Vec3.sub_z, Vec3.smul_x, Vec3.smul_y, Vec3.smul_z]
    norm_num [abs_of_nonneg]
  · simp only [raySegPointDistSq, c5RayStart, c5RayDir, Vec3.normSq,
      Vec3.add_x, Vec3.add_y, Vec3.add_z, Vec3.sub_x, Vec3.sub_y,
      Vec3.sub_z, Vec3.smul_x, Vec3.smul_y, Vec3.smul_z]
    norm_num
  · intro t u _ _
    have h : raySegPointDistSq c5RayStart c5RayDir ⟨0, 0, 0⟩ ⟨2, 0, 0⟩ t u =
        (-5 + t - 2 * u) * (-5 + t - 2 * u) + 1 := by
      simp only [raySegPointDistSq, c5RayStart, c5RayDir, Vec3.normSq,
        Vec3.add_def, Vec3.sub_def, Vec3.smul_def]
      ring
    rw [h]
    nlinarith [mul_self_nonneg (-5 + t - 2 * u)]
  · intro t u _ _
    have h : raySegPointDistSq c5RayStart c5RayDir ⟨0, 0, 0⟩ ⟨0, 0, 2⟩ t u =
        (-5 + t) * (-5 + t) + 1 + (2 * u) * (2 * u) := by
      simp only [raySegPointDistSq, c5RayStart, c5RayDir, Vec3.normSq,
        Vec3.add_def, Vec3.sub_def, Vec3.smul_def]
      ring
    rw [h]
    nlinarith [mul_self_nonneg (-5 + t), mul_self_nonneg (2 * u)]

/-- Closed form of the `check_gizmo_pick` selection loop for an arbitrary
per-axis distance function `d`. -/
theorem gizmoLoopSpec (d : Axis → ℚ) :
    (([Axis.x, Axis.y, Axis.z].foldl
        (fun st a => if d a < st.2 then (some a, d a) else st)
        ((none : Option Axis), 1 / 10)).1 : Option Axis) =
      if d Axis.x < 1 / 10 ∧ d Axis.x ≤ d Axis.y ∧ d Axis.x ≤ d Axis.z then
        some Axis.x
      else if d Axis.y < 1 / 10 ∧ d Axis.y < d Axis.x ∧
          d Axis.y ≤ d Axis.z then
        some Axis.y
      else if d Axis.z < 1 / 10 ∧ d Axis.z < d Axis.x ∧
          d Axis.z < d Axis.y then
        some Axis.z
      else
        none := by
  simp only [List.foldl]
  by_cases h1 : d Axis.x < 1 / 10
  · rw [if_pos h1]
    dsimp only
    by_cases h2 : d Axis.y < d Axis.x
    · rw [if_pos h2]
      dsimp only
      by_cases h3 : d Axis.z < d Axis.y
      · rw [if_pos h3]
        dsimp only
        rw [if_neg (by rintro ⟨a, b, c⟩; linarith),
          if_neg (by rintro ⟨a, b, c⟩; linarith),
          if_pos ⟨by linarith, by linarith, by linarith⟩]
      · rw [if_neg h3]
        dsimp only
        rw [if_neg (by rintro ⟨a, b, c⟩; linarith),
          if_pos ⟨by linarith, by linarith, by linarith⟩]
    · rw [if_neg h2]
      dsimp only
      by_cases h4 : d Axis.z < d Axis.x
      · rw [if_pos h4]
        dsimp only
        rw [if_neg (by rintro ⟨a, b, c⟩; linarith),
          if_neg (by rintro ⟨a, b, c⟩; linarith),
          if_pos ⟨by linarith, by linarith, by linarith⟩]
      · rw [if_neg h4]
        dsimp only
        rw [if_pos ⟨by linarith, by linarith, by linarith⟩]
  · rw [if_neg h1]
    dsimp only
    by_cases h5 : d Axis.y < 1 / 10
    · rw [if_pos h5]
      dsimp only
      by_cases h6 : d Axis.z < d Axis.y
      · rw [if_pos h6]
        dsimp only
        rw [if_neg (by rintro ⟨a, b, c⟩; linarith),
          if_neg (by rintro ⟨a, b, c⟩; linarith),
          if_pos ⟨by linarith, by linarith, by linarith⟩]
      · rw [if_neg h6]
        dsimp only
        rw [if_neg (by rintro ⟨a, b, c⟩; linarith),
          if_pos ⟨by linarith, by linarith, by linarith⟩]
    · rw [if_neg h5]
      dsimp only
      by_cases h7 : d Axis.z < 1 / 10
      · rw [if_pos h7]
        dsimp only
        rw [if_neg (by rintro ⟨a, b, c⟩; linarith),
          if_neg (by rintro ⟨a, b, c⟩; linarith),
          if_pos ⟨by linarith, by linarith, by linarith⟩]
      · rw [if_neg h7]
        dsimp only
        rw [if_neg (by rintro ⟨a, b, c⟩; linarith),
          if_neg (by rintro ⟨a, b, c⟩; linarith),
          if_neg (by rintro ⟨a, b, c⟩; linarith)]

/-- C5 (amended): axis picking computes, for each axis segment
`[obj_pos, obj_pos + axis_dir * 2]`, the value
`|cross(ray_dir, axis_dir) ⬝ (obj_pos - ray_start)|` (the offset of the two
infinite lines scaled by the sine of their angle — segment extent is
ignored and a ray parallel to an axis always yields 0), not a
point-to-segment distance.  Among the axes whose value is strictly under
the threshold `0.1` the smallest wins, ties broken in enumeration order
`x, y, z` (`x` beats `y` and `z` on equality, `y` beats `z`); when no
axis is under the threshold the result is `none` rather than an error. -/
theorem c5_axis_pick_characterization (ray_start ray_dir obj_pos : Vec3) :
    check_gizmo_axes ray_start ray_dir obj_pos =
      if gizmoAxisDist ray_start ray_dir obj_pos Axis.x < 1 / 10 ∧
          gizmoAxisDist ray_start ray_dir obj_pos Axis.x ≤
            gizmoAxisDist ray_start ray_dir obj_pos Axis.y ∧
          gizmoAxisDist ray_start ray_dir obj_pos Axis.x ≤
            gizmoAxisDist ray_start ray_dir obj_pos Axis.z then
        some Axis.x
      else if gizmoAxisDist ray_start ray_dir obj_pos Axis.y < 1 / 10 ∧
          gizmoAxisDist ray_start ray_dir obj_pos Axis.y <
            gizmoAxisDist ray_start ray_dir obj_pos Axis.x ∧
          gizmoAxisDist ray_start ray_dir obj_pos Axis.y ≤
            gizmoAxisDist ray_start ray_dir obj_pos Axis.z then
        some Axis.y
      else if gizmoAxisDist ray_start ray_dir obj_pos Axis.z < 1 / 10 ∧
          gizmoAxisDist ray_start ray_dir obj_pos Axis.z <
            gizmoAxisDist ray_start ray_dir obj_pos Axis.x ∧
          gizmoAxisDist ray_start ray_dir obj_pos Axis.z <
            gizmoAxisDist ray_start ray_dir obj_pos Axis.y then
        some Axis.z
      else
        none := by
  exact gizmoLoopSpec (gizmoAxisDist ray_start ray_dir obj_pos)

/-! ## Selection / manipulation state machine
(`Viewport.mousePressEvent`, `mouseReleaseEvent`, `mouseMoveEvent`,
`check_object_selection`, `check_gizmo_pick`, `get_object_position`,
`get_object_transform`, `handle_transform_drag`) -/

/-- The selectable scene objects; the source uses the string tags
`'model'` and `'wind_plate'`. -/
inductive SelObj where
  | model
  | windPlate
deriving DecidableEq, Repr

/-- The transform dict returned by `get_object_transform`:
`{'position': ..., 'rotation': ...}`. -/
structure Transform where
  position : Vec3
  rotation : Vec3
deriving DecidableEq, Repr

/-- The wind plate dict (`self.wind_plate`); only the fields the modelled
operations touch. -/
structure WindPlate where
  position : Vec3
  rotation : Vec3
deriving DecidableEq, Repr

/-- The `Viewport` attributes driving selection and manipulation. -/
structure UIState where
  transformMode : Bool
  selected_object : Option SelObj
  selected_axis : Option Axis
  dragging : Bool
  drag_start_transform : Option Transform
  wind_plate : Option WindPlate
  model_loaded : Bool
  model_vertices : List Vec3
deriving DecidableEq, Repr

/-- `np.mean(vertices, axis=0)`: componentwise sum divided by length.
(On an empty list numpy yields NaN with a warning; in `ℚ` the division
by zero yields 0.  The modelled operations only reach this when the
selected object is the model, which the source only selects when a model
is loaded.) -/
def meanPos (l : List Vec3) : Vec3 :=
  (1 / (l.length : ℚ)) • l.foldl (fun a v => a + v) 0

/-- `Viewport.get_object_position`.  (`self.wind_plate['position']` with a
missing `wind_plate` attribute would raise in Python; that path is only
reachable with an inconsistent selection and is modelled as the origin.) -/
def get_object_position (s : UIState) : Vec3 :=
  match s.selected_object with
  | some SelObj.model => 0
  | some SelObj.windPlate =>
      match s.wind_plate with
      | some w => w.position
      | none => 0
  | none => 0

/-- `Viewport.get_object_transform`.  The `hasattr(self, 'model_vertices')`
guard is always true (the attribute is set in `__init__`). -/
def get_object_transform (s : UIState) : Option Transform :=
  match s.selected_object with
  | some SelObj.model => some ⟨meanPos s.model_vertices, ⟨0, 0, 0⟩⟩
  | some SelObj.windPlate =>
      s.wind_plate.map (fun w => ⟨w.position, w.rotation⟩)
  | none => none

/-- `Viewport.check_gizmo_pick`: early-returns when nothing is selected,
otherwise stores the picked axis (possibly `None`) in `selected_axis`. -/
def check_gizmo_pick (ray_start ray_dir : Vec3) (s : UIState) : UIState :=
  if s.selected_object = none then s
  else
    { s with selected_axis :=
        check_gizmo_axes ray_start ray_dir (get_object_position s) }

/-- The model-branch tail of `Viewport.check_object_selection`:
`np.linalg.norm(ray_start) < 2.0` is the exact comparison
`normSq ray_start < 4`. -/
def check_object_selection_model (ray_start : Vec3) (s : UIState) : UIState :=
  if s.model_loaded = true ∧ Vec3.normSq ray_start < 4 then
    { s with selected_object := some SelObj.model }
  else
    { s with selected_object := none, selected_axis := none }

/-- `Viewport.check_object_selection`:
`np.linalg.norm(ray_start - pos) < 2.0` is the exact comparison
`normSq (ray_start - pos) < 4`. -/
def check_object_selection (ray_start : Vec3) (s : UIState) : UIState :=
  match s.wind_plate with
  | some w =>
      if Vec3.normSq (ray_start - w.position) < 4 then
        { s with selected_object := some SelObj.windPlate }
      else check_object_selection_model ray_start s
  | none => check_object_selection_model ray_start s

/-- The left-button branch of `Viewport.mousePressEvent`.  The cursor
position only enters through the ray `get_ray_from_mouse` computes from
it, so the ray is the event parameter here.  (`self.drag_start_pos` is
also stored by the source but never read by any modelled operation.) -/
def mousePressLeft (ray_start ray_dir : Vec3) (s : UIState) : UIState :=
  if s.transformMode = true then
    let s1 := check_gizmo_pick ray_start ray_dir s
    if s1.selected_axis ≠ none then
      { s1 with dragging := true,
                drag_start_transform := get_object_transform s1 }
    else s1
  else
    check_object_selection ray_start s

/-- The left-button branch of `Viewport.mouseReleaseEvent`:
in transform mode it clears `dragging` and `selected_axis` —
and nothing else. -/
def mouseReleaseLeft (s : UIState) : UIState :=
  if s.transformMode = true then
    { s with dragging := false, selected_axis := none }
  else s

/-- `Viewport.handle_transform_drag(dx, dy)`.  The source derives the
camera `right`/`up` vectors from `self.rotation` through floating-point
trigonometry; they are taken as parameters here (every theorem below
holds for all of them, and the concrete instantiations used are exact
values of that trigonometry, e.g. yaw 180°, pitch 0° gives
`right = (1,0,0)`, `up = (0,1,0)`).  `move_speed = 0.01 * self.zoom`;
`screen_movement = right * dx + up * -dy`;
`movement = axis * dot(screen_movement, axis) * move_speed`; the wind
plate gets `drag_start_transform['position'] + movement`, while the
model branch adds `movement` to every current vertex. -/
def handle_transform_drag (right up : Vec3) (zoom dx dy : ℚ)
    (s : UIState) : UIState :=
  if s.selected_object = none ∨ s.drag_start_transform = none then s
  else
    match s.selected_axis with
    | none => s
    | some ax =>
        let move_speed := 1 / 100 * zoom
        let screen_movement := dx • right + (-dy) • up
        let movement :=
          (Vec3.dot screen_movement (axisDir ax) * move_speed) • axisDir ax
        match s.selected_object, s.drag_start_transform with
        | some SelObj.windPlate, some t0 =>
            let moved := fun w : WindPlate =>
              { w with position := t0.position + movement }
            { s with wind_plate := s.wind_plate.map moved }
        | some SelObj.model, some _ =>
            let shifted := s.model_vertices.map (fun v => v + movement)
            { s with model_vertices := shifted }
        | _, _ => s

/-- The dragging branch of `Viewport.mouseMoveEvent`: the drag handler
only runs while `self.dragging and self.selected_axis and
self.selected_object`; `dx, dy` are the screen delta since the previous
event. -/
def mouseMoveDrag (right up : Vec3) (zoom dx dy : ℚ)
    (s : UIState) : UIState :=
  if s.dragging = true ∧ s.selected_axis ≠ none ∧
      s.selected_object ≠ none then
    handle_transform_drag right up zoom dx dy s
  else s

/-- Component of a vector along a world axis. -/
def Vec3.comp : Axis → Vec3 → ℚ
  | Axis.x, v => v.x
  | Axis.y, v => v.y
  | Axis.z, v => v.z

/-- The position C4 claims a drag event produces:
`dragSnapshot.position + axisDirection * dot(screenDisplacement,
axisDirection) * moveSpeed` with `moveSpeed = 0.01 * zoom`.  Claim-side
definition, written from the claim's words, to be compared with what
`handle_transform_drag` computes. -/
def dragClaimPosition (right up : Vec3) (zoom dx dy : ℚ) (ax : Axis)
    (snapshot : Transform) : Vec3 :=
  snapshot.position +
    (Vec3.dot (dx • right + (-dy) • up) (axisDir ax) * (1 / 100 * zoom)) •
      axisDir ax

theorem comp_axisDir_of_ne (b ax : Axis) (h : b ≠ ax) :
    Vec3.comp b (axisDir ax) = 0 := by
  cases b <;> cases ax <;> simp_all [Vec3.comp, axisDir]

/-- C4 (amended): a drag move event moves the wind plate to exactly
`dragSnapshot.position + axisDir * dot(screenDisplacement, axisDir) *
(0.01 * zoom)` (the claim's formula, with the screen displacement being
the delta since the previous event), and that position differs from the
snapshot only in the locked axis's component; the model object, however,
is moved by adding the same movement vector to its *current* vertices,
so across a drag its position accumulates the per-event movements
instead of being re-derived from the snapshot. -/
theorem c4_drag_formula (right up : Vec3) (zoom dx dy : ℚ) (s : UIState)
    (ax : Axis) (t0 : Transform)
    (hax : s.selected_axis = some ax)
    (hdst : s.drag_start_transform = some t0) :
    (∀ w, s.selected_object = some SelObj.windPlate →
      s.wind_plate = some w →
      (handle_transform_drag right up zoom dx dy s).wind_plate =
        some { w with
          position := dragClaimPosition right up zoom dx dy ax t0 }) ∧
    (s.selected_object = some SelObj.model →
      (handle_transform_drag right up zoom dx dy s).model_vertices =
        s.model_vertices.map (fun v => v +
          (Vec3.dot (dx • right + (-dy) • up) (axisDir ax) *
            (1 / 100 * zoom)) • axisDir ax)) ∧
    (∀ b : Axis, b ≠ ax →
      Vec3.comp b (dragClaimPosition right up zoom dx dy ax t0) =
        Vec3.comp b t0.position) := by
  refine ⟨?_, ?_, ?_⟩
  · intro w hobj hwp
    simp [handle_transform_drag, hobj, hdst, hax, hwp, dragClaimPosition]
  · intro hobj
    simp [handle_transform_drag, hobj, hdst, hax]
  · intro b hb
    cases b <;> cases ax <;>
      simp_all [Vec3.comp, dragClaimPosition, axisDir]

/-- Concrete wind-plate drag state for the C4 witness: snapshot and
plate at `(2, 3, 4)`, axis `x` locked. -/
def c4WindState : UIState :=
  { transformMode := true, selected_object := some SelObj.windPlate,
    selected_axis := some Axis.x, dragging := true,
    drag_start_transform := some ⟨⟨2, 3, 4⟩, ⟨0, 0, 0⟩⟩,
    wind_plate := some ⟨⟨2, 3, 4⟩, ⟨0, 0, 0⟩⟩,
    model_loaded := false, model_vertices := [] }

/-- Witness for C4 (amended) at a concrete wind-plate drag: camera basis
`right = (1,0,0)`, `up = (0,1,0)` (yaw 180°, pitch 0°), zoom 100,
screen delta `(10, 0)`. -/
theorem c4_drag_formula_witness :
    c4WindState.selected_axis = some Axis.x ∧
    c4WindState.drag_start_transform = some ⟨⟨2, 3, 4⟩, ⟨0, 0, 0⟩⟩ ∧
    ((∀ w, c4WindState.selected_object = some SelObj.windPlate →
        c4WindState.wind_plate = some w →
        (handle_transform_drag ⟨1, 0, 0⟩ ⟨0, 1, 0⟩ 100 10 0
            c4WindState).wind_plate =
          some ⟨dragClaimPosition ⟨1, 0, 0⟩ ⟨0, 1, 0⟩ 100 10 0 Axis.x
            ⟨⟨2, 3, 4⟩, ⟨0, 0, 0⟩⟩, w.rotation⟩) ∧
      (c4WindState.selected_object = some SelObj.model →
        (handle_transform_drag ⟨1, 0, 0⟩ ⟨0, 1, 0⟩ 100 10 0
            c4WindState).model_vertices =
          c4WindState.model_vertices.map (fun v => v +
            (Vec3.dot ((10 : ℚ) • (⟨1, 0, 0⟩ : Vec3) +
                (-(0 : ℚ)) • (⟨0, 1, 0⟩ : Vec3))
              (axisDir Axis.x) * (1 / 100 * 100)) • axisDir Axis.x)) ∧
      (∀ b : Axis, b ≠ Axis.x →
        Vec3.comp b (dragClaimPosition ⟨1, 0, 0⟩ ⟨0, 1, 0⟩ 100 10 0 Axis.x
          ⟨⟨2, 3, 4⟩, ⟨0, 0, 0⟩⟩) =
          Vec3.comp b (⟨⟨2, 3, 4⟩, ⟨0, 0, 0⟩⟩ : Transform).position)) :=
  ⟨rfl, rfl, c4_drag_formula ⟨1, 0, 0⟩ ⟨0, 1, 0⟩ 100 10 0 c4WindState Axis.x
    ⟨⟨2, 3, 4⟩, ⟨0, 0, 0⟩⟩ rfl rfl⟩

/-- Initial state for the C4 counterexample: transform mode on, the
loaded model selected, with a single vertex at the origin. -/
def c4State0 : UIState :=
  { transformMode := true, selected_object := some SelObj.model,
    selected_axis := none, dragging := false,
    drag_start_transform := none, wind_plate := none,
    model_loaded := true, model_vertices := [⟨0, 0, 0⟩] }

/-- After the press that starts the drag (picking axis `x`). -/
def c4s1 : UIState := mousePressLeft ⟨-5, 1, 0⟩ ⟨1, 0, 0⟩ c4State0

/-- After a first drag move of screen delta `(100, 0)` at zoom 100. -/
def c4s2 : UIState := mouseMoveDrag ⟨1, 0, 0⟩ ⟨0, 1, 0⟩ 100 100 0 c4s1

/-- After a second drag move of screen delta `(1, 0)`. -/
def c4s3 : UIState := mouseMoveDrag ⟨1, 0, 0⟩ ⟨0, 1, 0⟩ 100 1 0 c4s2

/-- C4 is false as stated for the model object: in the concrete drag
`c4State0 → press → move (100,0) → move (1,0)` the snapshot captured at
the press is the origin and the second move's claimed position is
`snapshot + movement = (1,0,0)`, but the code adds the movement to the
current vertices, leaving the model's position (its single vertex, hence
its centroid) at `(101,0,0)`. -/
theorem c4_counterexample :
    c4s1.drag_start_transform = some ⟨⟨0, 0, 0⟩, ⟨0, 0, 0⟩⟩ ∧
    c4s3.drag_start_transform = some ⟨⟨0, 0, 0⟩, ⟨0, 0, 0⟩⟩ ∧
    c4s3.selected_axis = some Axis.x ∧
    c4s3.model_vertices = [⟨101, 0, 0⟩] ∧
    dragClaimPosition ⟨1, 0, 0⟩ ⟨0, 1, 0⟩ 100 1 0 Axis.x
      ⟨⟨0, 0, 0⟩, ⟨0, 0, 0⟩⟩ = ⟨1, 0, 0⟩ ∧
    (⟨101, 0, 0⟩ : Vec3) ≠ ⟨1, 0, 0⟩ := by
  have hs1 : c4s1 = { c4State0 with
      selected_axis := some Axis.x, dragging := true,
      drag_start_transform := some ⟨⟨0, 0, 0⟩, ⟨0, 0, 0⟩⟩ } := by
    simp [c4s1, mousePressLeft, check_gizmo_pick, c4State0,
      get_object_position, get_object_transform, meanPos,
      check_gizmo_axes, gizmoAxisDist, point_line_distance, List.foldl,
      axisDir, Vec3.dot, Vec3.cross, Vec3.zero_def, Vec3.add_def,
      Vec3.sub_def, Vec3.smul_def]
    try norm_num
    try simp
  have hs2 : c4s2 = { c4State0 with
      selected_axis := some Axis.x, dragging := true,
      drag_start_transform := some ⟨⟨0, 0, 0⟩, ⟨0, 0, 0⟩⟩,
      model_vertices := [⟨100, 0, 0⟩] } := by
    rw [c4s2, hs1]
    simp [mouseMoveDrag, handle_transform_drag, c4State0, axisDir,
      Vec3.dot, Vec3.zero_def, Vec3.add_def, Vec3.sub_def, Vec3.smul_def]
    try norm_num
  have hs3 : c4s3 = { c4State0 with
      selected_axis := some Axis.x, dragging := true,
      drag_start_transform := some ⟨⟨0, 0, 0⟩, ⟨0, 0, 0⟩⟩,
      model_vertices := [⟨101, 0, 0⟩] } := by
    rw [c4s3, hs2]
    simp [mouseMoveDrag, handle_transform_drag, c4State0, axisDir,
      Vec3.dot, Vec3.zero_def, Vec3.add_def, Vec3.sub_def, Vec3.smul_def]
    try norm_num
  refine ⟨by rw [hs1], by rw [hs3], by rw [hs3], by rw [hs3], ?_, by
    intro h
    have := congrArg Vec3.x h
    norm_num at this⟩
  simp [dragClaimPosition, axisDir, Vec3.dot, Vec3.zero_def, Vec3.add_def,
    Vec3.smul_def]
  try norm_num

/-- C10 (amended): in transform mode, the press that starts a drag
captures the snapshot freshly from the object's current transform (so
the next drag always starts fresh), and a primary-button release resets
`dragging` and `selected_axis` — but it does not clear
`drag_start_transform`, which keeps holding the last drag's snapshot. -/
theorem c10_snapshot_lifecycle (ray_start ray_dir : Vec3) (s : UIState)
    (hmode : s.transformMode = true) :
    ((check_gizmo_pick ray_start ray_dir s).selected_axis ≠ none →
      (mousePressLeft ray_start ray_dir s).dragging = true ∧
      (mousePressLeft ray_start ray_dir s).drag_start_transform =
        get_object_transform (check_gizmo_pick ray_start ray_dir s)) ∧
    (mouseReleaseLeft s).dragging = false ∧
    (mouseReleaseLeft s).selected_axis = none ∧
    (mouseReleaseLeft s).drag_start_transform = s.drag_start_transform := by
  refine ⟨fun hpick => ?_, ?_, ?_, ?_⟩
  · simp [mousePressLeft, hmode, hpick]
  · simp [mouseReleaseLeft, hmode]
  · simp [mouseReleaseLeft, hmode]
  · simp [mouseReleaseLeft, hmode]

/-- Initial state for the C10 counterexample and witness: transform mode
on, wind plate at the origin and selected. -/
def c10State0 : UIState :=
  { transformMode := true, selected_object := some SelObj.windPlate,
    selected_axis := none, dragging := false,
    drag_start_transform := none,
    wind_plate := some ⟨⟨0, 0, 0⟩, ⟨0, 0, 0⟩⟩,
    model_loaded := false, model_vertices := [] }

/-- Witness for C10 (amended) at `c10State0` and the ray that picks the
x axis. -/
theorem c10_snapshot_lifecycle_witness :
    c10State0.transformMode = true ∧
    (((check_gizmo_pick ⟨-5, 1, 0⟩ ⟨1, 0, 0⟩ c10State0).selected_axis ≠ none →
      (mousePressLeft ⟨-5, 1, 0⟩ ⟨1, 0, 0⟩ c10State0).dragging = true ∧
      (mousePressLeft ⟨-5, 1, 0⟩ ⟨1, 0, 0⟩ c10State0).drag_start_transform =
        get_object_transform (check_gizmo_pick ⟨-5, 1, 0⟩ ⟨1, 0, 0⟩ c10State0)) ∧
    (mouseReleaseLeft c10State0).dragging = false ∧
    (mouseReleaseLeft c10State0).selected_axis = none ∧
    (mouseReleaseLeft c10State0).drag_start_transform =
      c10State0.drag_start_transform) :=
  ⟨rfl, c10_snapshot_lifecycle ⟨-5, 1, 0⟩ ⟨1, 0, 0⟩ c10State0 rfl⟩

/-- C10 is false as stated: after `press (drag starts, snapshot
captured); release` the drag is over (`dragging = false`,
`selected_axis = none`) yet the snapshot is still present —
`drag_start_transform` was never cleared — contradicting "`dragSnapshot`
is present iff a drag is in progress" / "no snapshot persists after
release". -/
theorem c10_counterexample :
    (mouseReleaseLeft (mousePressLeft ⟨-5, 1, 0⟩ ⟨1, 0, 0⟩ c10State0)).dragging
      = false ∧
    (mouseReleaseLeft (mousePressLeft ⟨-5, 1, 0⟩ ⟨1, 0, 0⟩ c10State0)).selected_axis
      = none ∧
    (mouseReleaseLeft (mousePressLeft ⟨-5, 1, 0⟩ ⟨1, 0, 0⟩ c10State0)).drag_start_transform
      = some ⟨⟨0, 0, 0⟩, ⟨0, 0, 0⟩⟩ := by
  have hp : mousePressLeft ⟨-5, 1, 0⟩ ⟨1, 0, 0⟩ c10State0 = { c10State0 with
      selected_axis := some Axis.x, dragging := true,
      drag_start_transform := some ⟨⟨0, 0, 0⟩, ⟨0, 0, 0⟩⟩ } := by
    simp [mousePressLeft, check_gizmo_pick, c10State0,
      get_object_position, get_object_transform, check_gizmo_axes,
      gizmoAxisDist, point_line_distance, List.foldl, axisDir, Vec3.dot,
      Vec3.cross, Vec3.zero_def, Vec3.add_def, Vec3.sub_def,
      Vec3.smul_def]
    try norm_num
    try simp
  rw [hp]
  refine ⟨?_, ?_, ?_⟩ <;> simp [mouseReleaseLeft, c10State0]

/-! ## Mesh ingestion (`Viewport.load_obj`) -/

/-- One face corner token of an `f` record (`i`, `i/t`, `i//n`, `i/t/n`):
the vertex index exactly as written in the file, and the normal index
when the token has a third slash-field that is nonempty
(`len(w) > 2 and w[2]`). -/
structure FaceCorner where
  vi : Int
  ni : Option Int
deriving DecidableEq, Repr

/-- One record of the mesh file after tokenization: `load_obj` reads each
line, skips `#` comments and blank lines, splits on whitespace and
dispatches on the first token; `v`/`vn` records carry the three floats of
`values[1:4]`, and any unrecognized first token is ignored (`other`). -/
inductive ObjRec where
  | v (p : Vec3)
  | vn (p : Vec3)
  | f (corners : List FaceCorner)
  | other
deriving DecidableEq, Repr

/-- `temp_vertices` collected by the read loop. -/
def temp_vertices (file : List ObjRec) : List Vec3 :=
  file.filterMap (fun r => match r with
    | ObjRec.v p => some p
    | _ => none)

/-- `temp_normals` collected by the read loop. -/
def temp_normals (file : List ObjRec) : List Vec3 :=
  file.filterMap (fun r => match r with
    | ObjRec.vn p => some p
    | _ => none)

/-- `faces` collected by the read loop: per face, the vertex indices
`int(w[0]) - 1` in order, and the normal indices `int(w[2]) - 1`
gathered only from the corners that supply one. -/
def facesOf (file : List ObjRec) : List (List Int × List Int) :=
  file.filterMap (fun r => match r with
    | ObjRec.f cs => some (cs.map (fun c => c.vi - 1),
        (cs.filterMap (fun c => c.ni)).map (fun n => n - 1))
    | _ => none)

/-- Python list indexing `l[i]`: a non-negative index is bounds-checked;
a negative index wraps from the end (`l[-k]` is `l[len(l) - k]`); an
index outside `[-len(l), len(l))` raises `IndexError` (modelled as
`none`). -/
def pyGet (l : List α) (i : Int) : Option α :=
  if 0 ≤ i then l.get? i.toNat
  else if -i ≤ (l.length : Int) then l.get? (l.length - (-i).toNat)
  else none

/-- A normal as the face loop produces it, before the final floating
normalization: either a file normal used verbatim, or the raw cross
product `(v2 - v1) × (v3 - v1)` awaiting `normal / ‖normal‖` under the
guard `‖normal‖ > 0` (see `resolveNormal`). -/
inductive NormalVal where
  | fromFile (nv : Vec3)
  | computedN (c : Vec3)
deriving DecidableEq, Repr

/-- Sequential mapping that aborts at the first failure, as the Python
loop aborts at the first exception. -/
def optMap (f : α → Option β) : List α → Option (List β)
  | [] => some []
  | a :: t =>
      match f a, optMap f t with
      | some b, some bs => some (b :: bs)
      | _, _ => none

/-- The triangulation loop indices of `load_obj`: for
`i in range(1, len(face_verts) - 1)` and `idx in [0, i, i + 1]`, the
pairs `(i, idx)` in order. -/
def fanCorners (n : Nat) : List (Nat × Nat) :=
  (List.range' 1 (n - 2)).flatMap (fun i => [(i, 0), (i, i), (i, i + 1)])

/-- One corner of one triangle of the face loop: look up the vertex
(Python indexing), then either the file normal — used whenever
`face_norms and len(face_norms) > idx`, regardless of which corner the
collected indices came from — or the raw cross product of the triangle's
edge vectors. -/
def processCorner (tv tn : List Vec3) (fv fn : List Int) (i idx : Nat) :
    Option (Vec3 × NormalVal) :=
  match pyGet tv (fv.getD idx 0) with
  | none => none
  | some vert =>
    if fn ≠ [] ∧ fn.length > idx then
      match pyGet tn (fn.getD idx 0) with
      | none => none
      | some nv => some (vert, NormalVal.fromFile nv)
    else
      match pyGet tv (fv.getD 0 0), pyGet tv (fv.getD i 0),
          pyGet tv (fv.getD (i + 1) 0) with
      | some v1, some v2, some v3 =>
          some (vert, NormalVal.computedN (Vec3.cross (v2 - v1) (v3 - v1)))
      | _, _, _ => none

/-- All corners emitted for one face. -/
def processFace (tv tn : List Vec3) (face : List Int × List Int) :
    Option (List (Vec3 × NormalVal)) :=
  optMap (fun p => processCorner tv tn face.1 face.2 p.1 p.2)
    (fanCorners face.1.length)

/-- `vertices_list` and `normals_list` of `load_obj`, flattened over all
faces in order. -/
def processFaces (tv tn : List Vec3)
    (faces : List (List Int × List Int)) :
    Option (List (Vec3 × NormalVal)) :=
  (optMap (processFace tv tn) faces).map List.flatten

/-- `arr.max()` of a numpy array of rationals; the source only applies
it to nonempty data (numpy raises on empty, handled at the call site). -/
def listMax : List ℚ → ℚ
  | [] => 0
  | a :: t => t.foldl max a

def listMin : List ℚ → ℚ
  | [] => 0
  | a :: t => t.foldl min a

def xsOf (l : List Vec3) : List ℚ := l.map Vec3.x

def ysOf (l : List Vec3) : List ℚ := l.map Vec3.y

def zsOf (l : List Vec3) : List ℚ := l.map Vec3.z

/-- `center = (vertices_array.max(axis=0) + vertices_array.min(axis=0)) / 2`. -/
def bboxCenter (l : List Vec3) : Vec3 :=
  ⟨(listMax (xsOf l) + listMin (xsOf l)) / 2,
   (listMax (ysOf l) + listMin (ysOf l)) / 2,
   (listMax (zsOf l) + listMin (zsOf l)) / 2⟩

/-- `max_size = np.max(vertices_array.max(axis=0) - vertices_array.min(axis=0))`. -/
def maxSize (l : List Vec3) : ℚ :=
  max (max (listMax (xsOf l) - listMin (xsOf l))
        (listMax (ysOf l) - listMin (ysOf l)))
    (listMax (zsOf l) - listMin (zsOf l))

/-- `scale = 5.0 / max_size if max_size > 0 else 1.0`. -/
def scaleOf (l : List Vec3) : ℚ :=
  if 0 < maxSize l then 5 / maxSize l else 1

/-- `vertices_array = (vertices_array - center) * scale`; on an empty
vertex list numpy's `max` raises (the "no vertices" parse failure),
modelled as `none`. -/
def normalizeVerts (l : List Vec3) : Option (List Vec3) :=
  if l = [] then none
  else some (l.map (fun v => scaleOf l • (v - bboxCenter l)))

/-- The CPU result of a successful `load_obj` ingestion. -/
structure IngestedMesh where
  positions : List Vec3
  normVals : List NormalVal
  vertexCount : Nat
deriving DecidableEq, Repr

/-- The ingestion pipeline of `load_obj` (file records → triangle soup →
normalized positions); `none` is a Python exception, i.e. a parse
failure: no mesh is produced. -/
def ingest (file : List ObjRec) : Option IngestedMesh :=
  match processFaces (temp_vertices file) (temp_normals file)
      (facesOf file) with
  | none => none
  | some pairs =>
    match normalizeVerts (pairs.map Prod.fst) with
    | none => none
    | some verts => some ⟨verts, pairs.map Prod.snd, verts.length⟩

/-- The final per-corner normal:
`normal / np.linalg.norm(normal) if np.linalg.norm(normal) > 0 else
np.array([0.0, 1.0, 0.0])`.  The normalization map `x ↦ x / ‖x‖`
involves a floating square root and is the parameter `nrm`; the source's
guard `np.linalg.norm(normal) > 0` is the exact condition
`normSq normal > 0`.  File normals are used verbatim. -/
def resolveNormal (nrm : Vec3 → Vec3) : NormalVal → Vec3
  | NormalVal.fromFile nv => nv
  | NormalVal.computedN c =>
      if 0 < Vec3.normSq c then nrm c else ⟨0, 1, 0⟩

instance : Inhabited Vec3 := ⟨⟨0, 0, 0⟩⟩

instance : Inhabited NormalVal := ⟨NormalVal.fromFile ⟨0, 0, 0⟩⟩

theorem optMap_eq_map [Inhabited β] (f : α → Option β) (l : List α)
    (r : List β) (h : optMap f l = some r) :
    r = l.map (fun a => (f a).iget) ∧ ∀ a ∈ l, (f a).isSome = true := by
  induction l generalizing r with
  | nil =>
      simp only [optMap, Option.some.injEq] at h
      subst h
      simp
  | cons a t ih =>
      unfold optMap at h
      cases hfa : f a with
      | none => rw [hfa] at h; simp at h
      | some b =>
          rw [hfa] at h
          cases hot : optMap f t with
          | none => rw [hot] at h; simp at h
          | some bs =>
              rw [hot] at h
              simp only [Option.some.injEq] at h
              subst h
              rcases ih bs hot with ⟨h1, h2⟩
              constructor
              · rw [List.map_cons, ← h1]
                simp [hfa]
              · intro a' ha'
                rcases List.mem_cons.mp ha' with ha' | ha'
                · subst ha'; simp [hfa]
                · exact h2 a' ha'

theorem processCorner_isSome_fst (tv tn : List Vec3) (fv fn : List Int)
    (i idx : Nat)
    (h : (processCorner tv tn fv fn i idx).isSome = true) :
    ((processCorner tv tn fv fn i idx).iget).1 =
      (pyGet tv (fv.getD idx 0)).iget := by
  cases hv : pyGet tv (fv.getD idx 0) with
  | none =>
      unfold processCorner at h
      rw [hv] at h
      simp at h
  | some vert =>
      unfold processCorner at h ⊢
      rw [hv] at h ⊢
      dsimp only at h ⊢
      by_cases hc : fn ≠ [] ∧ fn.length > idx
      · rw [if_pos hc] at h ⊢
        cases hn : pyGet tn (fn.getD idx 0) with
        | none => simp_all
        | some nv => simp_all
      · rw [if_neg hc] at h ⊢
        cases h1 : pyGet tv (fv.getD 0 0) with
        | none => simp_all
        | some v1 =>
            cases h2 : pyGet tv (fv.getD i 0) with
            | none => simp_all
            | some v2 =>
                cases h3 : pyGet tv (fv.getD (i + 1) 0) with
                | none => simp_all
                | some v3 => simp_all

theorem flatMapCongrMem {l : List α} {f g : α → List β}
    (h : ∀ a ∈ l, f a = g a) : l.flatMap f = l.flatMap g := by
  induction l with
  | nil => rfl
  | cons a t ih =>
      simp only [List.flatMap_cons]
      rw [h a (List.mem_cons_self a t), ih (fun a' ha' => h a' (List.mem_cons_of_mem a ha'))]

theorem fanCorners_succ (n : Nat) :
    fanCorners (n + 1) = (List.range' 1 (n - 1)).flatMap
      (fun i => [(i, 0), (i, i), (i, i + 1)]) := by
  unfold fanCorners
  congr 1

/-- The standard axis-aligned cube as 8 `v` records and 6 quad `f`
records (1-based indices, no normal indices). -/
def cubeFile : List ObjRec :=
  [ObjRec.v ⟨-1, -1, -1⟩, ObjRec.v ⟨1, -1, -1⟩,
   ObjRec.v ⟨1, 1, -1⟩, ObjRec.v ⟨-1, 1, -1⟩,
   ObjRec.v ⟨-1, -1, 1⟩, ObjRec.v ⟨1, -1, 1⟩,
   ObjRec.v ⟨1, 1, 1⟩, ObjRec.v ⟨-1, 1, 1⟩,
   ObjRec.f [⟨1, none⟩, ⟨2, none⟩, ⟨3, none⟩, ⟨4, none⟩],
   ObjRec.f [⟨5, none⟩, ⟨6, none⟩, ⟨7, none⟩, ⟨8, none⟩],
   ObjRec.f [⟨1, none⟩, ⟨2, none⟩, ⟨6, none⟩, ⟨5, none⟩],
   ObjRec.f [⟨2, none⟩, ⟨3, none⟩, ⟨7, none⟩, ⟨6, none⟩],
   ObjRec.f [⟨3, none⟩, ⟨4, none⟩, ⟨8, none⟩, ⟨7, none⟩],
   ObjRec.f [⟨4, none⟩, ⟨1, none⟩, ⟨5, none⟩, ⟨8, none⟩]]

/-- C2: a parsed face with vertices `v0..vn` (`n ≥ 2` after 0-basing,
i.e. `fv.length = n + 1`) is fan-triangulated into exactly the triangles
`(v0, v_i, v_{i+1})` for `i = 1..n-1`, in that order — the emitted
vertex run is the concatenation of `[v0, v_i, v_{i+1}]` over those `i` —
and the cube given as 6 quads ingests to `vertexCount = 36`.
(The identity also holds vacuously for `n < 2`: no triangles.) -/
theorem c2_fan_triangulation (tv tn : List Vec3) (fv fn : List Int)
    (n : Nat) (r : List (Vec3 × NormalVal))
    (hn : fv.length = n + 1)
    (h : processFace tv tn (fv, fn) = some r) :
    r.map Prod.fst = (List.range' 1 (n - 1)).flatMap (fun i =>
      [(pyGet tv (fv.getD 0 0)).iget, (pyGet tv (fv.getD i 0)).iget,
        (pyGet tv (fv.getD (i + 1) 0)).iget]) ∧
    (ingest cubeFile).map (fun m => m.vertexCount) = some 36 := by
  constructor
  · unfold processFace at h
    rcases optMap_eq_map _ _ _ h with ⟨h1, h2⟩
    subst h1
    rw [List.map_map]
    simp only at h2 ⊢
    rw [hn] at h2 ⊢
    rw [fanCorners_succ] at h2 ⊢
    rw [List.map_flatMap]
    apply flatMapCongrMem
    intro i hi
    have hmem : ∀ idx, (i, idx) ∈ [(i, 0), (i, i), (i, i + 1)] →
        ((processCorner tv tn fv fn i idx).isSome = true) := by
      intro idx hidx
      exact h2 (i, idx) (List.mem_flatMap.mpr ⟨i, hi, hidx⟩)
    simp only [List.map_cons, List.map_nil, Function.comp]
    rw [processCorner_isSome_fst tv tn fv fn i 0 (hmem 0 (by simp)),
      processCorner_isSome_fst tv tn fv fn i i (hmem i (by simp)),
      processCorner_isSome_fst tv tn fv fn i (i + 1) (hmem (i + 1) (by simp))]
  · norm_num [ingest, cubeFile, processFaces, processFace, processCorner,
      optMap, fanCorners, temp_vertices, temp_normals, facesOf, pyGet,
      normalizeVerts, listMax, listMin, xsOf, ysOf, zsOf, bboxCenter,
      maxSize, scaleOf, Vec3.cross, Vec3.sub_def, Vec3.smul_def,
      Option.bind, List.get?, max_def, min_def, List.range']
    simp

/-- Vertex table of the C2 witness: a planar quad. -/
def c2Tv : List Vec3 := [⟨0, 0, 0⟩, ⟨1, 0, 0⟩, ⟨1, 1, 0⟩, ⟨0, 1, 0⟩]

/-- Corner data the face loop produces for the quad `(0, 1, 2, 3)`. -/
def c2R : List (Vec3 × NormalVal) :=
  [(⟨0, 0, 0⟩, NormalVal.computedN ⟨0, 0, 1⟩),
   (⟨1, 0, 0⟩, NormalVal.computedN ⟨0, 0, 1⟩),
   (⟨1, 1, 0⟩, NormalVal.computedN ⟨0, 0, 1⟩),
   (⟨0, 0, 0⟩, NormalVal.computedN ⟨0, 0, 1⟩),
   (⟨1, 1, 0⟩, NormalVal.computedN ⟨0, 0, 1⟩),
   (⟨0, 1, 0⟩, NormalVal.computedN ⟨0, 0, 1⟩)]

/-- Witness for C2 at a concrete quad (n = 3): two fan triangles
`(v0, v1, v2)`, `(v0, v2, v3)`. -/
theorem c2_fan_triangulation_witness :
    ([(0 : Int), 1, 2, 3] : List Int).length = 3 + 1 ∧
    processFace c2Tv [] ([0, 1, 2, 3], []) = some c2R ∧
    (c2R.map Prod.fst = (List.range' 1 (3 - 1)).flatMap (fun i =>
      [(pyGet c2Tv (([(0 : Int), 1, 2, 3] : List Int).getD 0 0)).iget,
        (pyGet c2Tv (([(0 : Int), 1, 2, 3] : List Int).getD i 0)).iget,
        (pyGet c2Tv (([(0 : Int), 1, 2, 3] : List Int).getD (i + 1) 0)).iget]) ∧
      (ingest cubeFile).map (fun m => m.vertexCount) = some 36) := by
  have hface : processFace c2Tv [] ([0, 1, 2, 3], []) = some c2R := by
    norm_num [processFace, processCorner, optMap, fanCorners, pyGet,
      c2Tv, c2R, List.get?, Vec3.cross, Vec3.sub_def, List.range']
  exact ⟨rfl, hface,
    c2_fan_triangulation c2Tv [] [0, 1, 2, 3] [] 3 c2R rfl hface⟩

/-! ## Normalization (center and scale, C3) -/

theorem foldl_max_map (s b : ℚ) (hs : 0 ≤ s) (l : List ℚ) (a : ℚ) :
    (l.map (fun x => s * (x - b))).foldl max (s * (a - b)) =
      s * (l.foldl max a - b) := by
  induction l generalizing a with
  | nil => simp
  | cons c t ih =>
      simp only [List.map_cons, List.foldl_cons]
      have hmax : max (s * (a - b)) (s * (c - b)) = s * (max a c - b) := by
        rw [← max_sub_sub_right a c b, mul_max_of_nonneg _ _ hs]
      rw [hmax, ih]

theorem foldl_min_map (s b : ℚ) (hs : 0 ≤ s) (l : List ℚ) (a : ℚ) :
    (l.map (fun x => s * (x - b))).foldl min (s * (a - b)) =
      s * (l.foldl min a - b) := by
  induction l generalizing a with
  | nil => simp
  | cons c t ih =>
      simp only [List.map_cons, List.foldl_cons]
      have hmin : min (s * (a - b)) (s * (c - b)) = s * (min a c - b) := by
        rw [← min_sub_sub_right a c b, mul_min_of_nonneg _ _ hs]
      rw [hmin, ih]

theorem listMax_map (s b : ℚ) (hs : 0 ≤ s) (l : List ℚ) (h : l ≠ []) :
    listMax (l.map (fun x => s * (x - b))) = s * (listMax l - b) := by
  cases l with
  | nil => exact absurd rfl h
  | cons a t =>
      simp only [List.map_cons, listMax]
      exact foldl_max_map s b hs t a

theorem listMin_map (s b : ℚ) (hs : 0 ≤ s) (l : List ℚ) (h : l ≠ []) :
    listMin (l.map (fun x => s * (x - b))) = s * (listMin l - b) := by
  cases l with
  | nil => exact absurd rfl h
  | cons a t =>
      simp only [List.map_cons, listMin]
      exact foldl_min_map s b hs t a

theorem xsOf_normalize (l : List Vec3) (s : ℚ) (c : Vec3) :
    xsOf (l.map (fun v => s • (v - c))) =
      (xsOf l).map (fun q => s * (q - c.x)) := by
  induction l with
  | nil => rfl
  | cons a t ih => simp_all [xsOf]

theorem ysOf_normalize (l : List Vec3) (s : ℚ) (c : Vec3) :
    ysOf (l.map (fun v => s • (v - c))) =
      (ysOf l).map (fun q => s * (q - c.y)) := by
  induction l with
  | nil => rfl
  | cons a t ih => simp_all [ysOf]

theorem zsOf_normalize (l : List Vec3) (s : ℚ) (c : Vec3) :
    zsOf (l.map (fun v => s • (v - c))) =
      (zsOf l).map (fun q => s * (q - c.z)) := by
  induction l with
  | nil => rfl
  | cons a t ih => simp_all [zsOf]

theorem scaleOf_nonneg (l : List Vec3) : 0 ≤ scaleOf l := by
  unfold scaleOf
  split_ifs with h
  · exact le_of_lt (div_pos (by norm_num) h)
  · norm_num

theorem xsOf_ne_nil (l : List Vec3) (h : l ≠ []) : xsOf l ≠ [] := by
  cases l with
  | nil => exact absurd rfl h
  | cons a t => simp [xsOf]

theorem ysOf_ne_nil (l : List Vec3) (h : l ≠ []) : ysOf l ≠ [] := by
  cases l with
  | nil => exact absurd rfl h
  | cons a t => simp [ysOf]

theorem zsOf_ne_nil (l : List Vec3) (h : l ≠ []) : zsOf l ≠ [] := by
  cases l with
  | nil => exact absurd rfl h
  | cons a t => simp [zsOf]

theorem Vec3.one_smul_eq (v : Vec3) : (1 : ℚ) • v = v := by
  cases v
  simp [Vec3.smul_def]

/-- C3: for every nonempty ingested vertex list the normalization step
succeeds, the midpoint of the resulting axis-aligned bounding box is the
origin (exactly, in the rational model), the largest resulting
bounding-box dimension is exactly 5 whenever the input has nonzero
extent, and for a zero-extent input the scale factor is exactly 1 (no
division by zero is performed) and the output is merely re-centered. -/
theorem c3_normalization (l : List Vec3) (h : l ≠ []) :
    ∃ out, normalizeVerts l = some out ∧
      (listMax (xsOf out) + listMin (xsOf out)) / 2 = 0 ∧
      (listMax (ysOf out) + listMin (ysOf out)) / 2 = 0 ∧
      (listMax (zsOf out) + listMin (zsOf out)) / 2 = 0 ∧
      (0 < maxSize l → maxSize out = 5) ∧
      (maxSize l = 0 → scaleOf l = 1 ∧
        out = l.map (fun v => v - bboxCenter l)) := by
  have hs : 0 ≤ scaleOf l := scaleOf_nonneg l
  refine ⟨l.map (fun v => scaleOf l • (v - bboxCenter l)), ?_, ?_, ?_, ?_, ?_, ?_⟩
  · unfold normalizeVerts
    rw [if_neg h]
  · rw [xsOf_normalize,
      listMax_map _ _ hs _ (xsOf_ne_nil l h),
      listMin_map _ _ hs _ (xsOf_ne_nil l h)]
    show (scaleOf l * (listMax (xsOf l) -
        (listMax (xsOf l) + listMin (xsOf l)) / 2) +
      scaleOf l * (listMin (xsOf l) -
        (listMax (xsOf l) + listMin (xsOf l)) / 2)) / 2 = 0
    ring
  · rw [ysOf_normalize,
      listMax_map _ _ hs _ (ysOf_ne_nil l h),
      listMin_map _ _ hs _ (ysOf_ne_nil l h)]
    show (scaleOf l * (listMax (ysOf l) -
        (listMax (ysOf l) + listMin (ysOf l)) / 2) +
      scaleOf l * (listMin (ysOf l) -
        (listMax (ysOf l) + listMin (ysOf l)) / 2)) / 2 = 0
    ring
  · rw [zsOf_normalize,
      listMax_map _ _ hs _ (zsOf_ne_nil l h),
      listMin_map _ _ hs _ (zsOf_ne_nil l h)]
    show (scaleOf l * (listMax (zsOf l) -
        (listMax (zsOf l) + listMin (zsOf l)) / 2) +
      scaleOf l * (listMin (zsOf l) -
        (listMax (zsOf l) + listMin (zsOf l)) / 2)) / 2 = 0
    ring
  · intro hm
    have hdims : maxSize (l.map (fun v => scaleOf l • (v - bboxCenter l))) =
        scaleOf l * maxSize l := by
      unfold maxSize
      rw [xsOf_normalize, ysOf_normalize, zsOf_normalize,
        listMax_map _ _ hs _ (xsOf_ne_nil l h),
        listMin_map _ _ hs _ (xsOf_ne_nil l h),
        listMax_map _ _ hs _ (ysOf_ne_nil l h),
        listMin_map _ _ hs _ (ysOf_ne_nil l h),
        listMax_map _ _ hs _ (zsOf_ne_nil l h),
        listMin_map _ _ hs _ (zsOf_ne_nil l h)]
      rw [show scaleOf l * (listMax (xsOf l) - (bboxCenter l).x) -
          scaleOf l * (listMin (xsOf l) - (bboxCenter l).x) =
          scaleOf l * (listMax (xsOf l) - listMin (xsOf l)) by ring,
        show scaleOf l * (listMax (ysOf l) - (bboxCenter l).y) -
          scaleOf l * (listMin (ysOf l) - (bboxCenter l).y) =
          scaleOf l * (listMax (ysOf l) - listMin (ysOf l)) by ring,
        show scaleOf l * (listMax (zsOf l) - (bboxCenter l).z) -
          scaleOf l * (listMin (zsOf l) - (bboxCenter l).z) =
          scaleOf l * (listMax (zsOf l) - listMin (zsOf l)) by ring]
      rw [← mul_max_of_nonneg _ _ hs, ← mul_max_of_nonneg _ _ hs]
    rw [hdims]
    unfold scaleOf
    rw [if_pos hm]
    exact div_mul_cancel₀ 5 (ne_of_gt hm)
  · intro hm
    have hscale : scaleOf l = 1 := by
      unfold scaleOf
      rw [hm]
      norm_num
    refine ⟨hscale, ?_⟩
    rw [hscale]
    simp [Vec3.one_smul_eq]

/-- Witness for C3 at a concrete two-point mesh. -/
theorem c3_normalization_witness :
    ([⟨0, 0, 0⟩, ⟨1, 2, 4⟩] : List Vec3) ≠ [] ∧
    (∃ out, normalizeVerts [⟨0, 0, 0⟩, ⟨1, 2, 4⟩] = some out ∧
      (listMax (xsOf out) + listMin (xsOf out)) / 2 = 0 ∧
      (listMax (ysOf out) + listMin (ysOf out)) / 2 = 0 ∧
      (listMax (zsOf out) + listMin (zsOf out)) / 2 = 0 ∧
      (0 < maxSize [⟨0, 0, 0⟩, ⟨1, 2, 4⟩] →
        maxSize out = 5) ∧
      (maxSize [⟨0, 0, 0⟩, ⟨1, 2, 4⟩] = 0 →
        scaleOf [⟨0, 0, 0⟩, ⟨1, 2, 4⟩] = 1 ∧
        out = ([⟨0, 0, 0⟩, ⟨1, 2, 4⟩] : List Vec3).map
          (fun v => v - bboxCenter [⟨0, 0, 0⟩, ⟨1, 2, 4⟩]))) :=
  ⟨by simp, c3_normalization [⟨0, 0, 0⟩, ⟨1, 2, 4⟩] (by simp)⟩

/-! ## Normal assignment and the degenerate-cross fallback (C7) -/

/-- C7 (amended): a face corner at position `idx` receives a file normal
exactly when the face's collected normal-index list is nonempty and
longer than `idx` (the indices are collected only from the corners that
supply one, so with a partially-supplied face this is not the same as
"this corner supplied an index"); every other corner receives the raw
cross product of the triangle's edge vectors, which the final step
normalizes only under the guard `‖c‖ > 0` — equivalent to `c ≠ 0` — and
otherwise replaces by exactly `(0, 1, 0)`, so the normalizing division
is never applied to a zero vector. -/
theorem c7_normal_assignment (nrm : Vec3 → Vec3) (tv tn : List Vec3)
    (fv fn : List Int) (i idx : Nat) (r : Vec3 × NormalVal)
    (h : processCorner tv tn fv fn i idx = some r) :
    (fn ≠ [] ∧ fn.length > idx →
      ∃ nv, pyGet tn (fn.getD idx 0) = some nv ∧
        r.2 = NormalVal.fromFile nv ∧ resolveNormal nrm r.2 = nv) ∧
    (¬(fn ≠ [] ∧ fn.length > idx) →
      ∃ v1 v2 v3, pyGet tv (fv.getD 0 0) = some v1 ∧
        pyGet tv (fv.getD i 0) = some v2 ∧
        pyGet tv (fv.getD (i + 1) 0) = some v3 ∧
        r.2 = NormalVal.computedN (Vec3.cross (v2 - v1) (v3 - v1))) ∧
    (∀ c : Vec3, c = 0 →
      resolveNormal nrm (NormalVal.computedN c) = ⟨0, 1, 0⟩) ∧
    (∀ c : Vec3, c ≠ 0 →
      resolveNormal nrm (NormalVal.computedN c) = nrm c) ∧
    (∀ c : Vec3, 0 < Vec3.normSq c ↔ c ≠ 0) := by
  refine ⟨?_, ?_, ?_, ?_, fun c => Vec3.normSq_pos_iff c⟩
  · intro hc
    unfold processCorner at h
    cases hv : pyGet tv (fv.getD idx 0) with
    | none => rw [hv] at h; simp at h
    | some vert =>
        rw [hv] at h
        dsimp only at h
        rw [if_pos hc] at h
        cases hn : pyGet tn (fn.getD idx 0) with
        | none => rw [hn] at h; simp at h
        | some nv =>
            rw [hn] at h
            simp only [Option.some.injEq] at h
            refine ⟨nv, rfl, by rw [← h], ?_⟩
            rw [← h]
            try rfl
  · intro hc
    unfold processCorner at h
    cases hv : pyGet tv (fv.getD idx 0) with
    | none => rw [hv] at h; simp at h
    | some vert =>
        rw [hv] at h
        dsimp only at h
        rw [if_neg hc] at h
        cases h1 : pyGet tv (fv.getD 0 0) with
        | none => rw [h1] at h; simp at h
        | some v1 =>
            rw [h1] at h
            cases h2 : pyGet tv (fv.getD i 0) with
            | none => rw [h2] at h; simp at h
            | some v2 =>
                rw [h2] at h
                cases h3 : pyGet tv (fv.getD (i + 1) 0) with
                | none => rw [h3] at h; simp at h
                | some v3 =>
                    rw [h3] at h
                    simp only [Option.some.injEq] at h
                    exact ⟨v1, v2, v3, rfl, rfl, rfl, by rw [← h]⟩
  · intro c hc
    subst hc
    simp [resolveNormal, Vec3.normSq]
  · intro c hc
    simp [resolveNormal, (Vec3.normSq_pos_iff c).mpr hc]

/-- Witness for C7 (amended) at a concrete corner with no normal
indices. -/
theorem c7_normal_assignment_witness :
    processCorner [⟨0, 0, 0⟩, ⟨1, 0, 0⟩, ⟨0, 1, 0⟩] [] [0, 1, 2] [] 1 0 =
      some (⟨0, 0, 0⟩, NormalVal.computedN ⟨0, 0, 1⟩) ∧
    ((([] : List Int) ≠ [] ∧ ([] : List Int).length > 0 →
      ∃ nv, pyGet ([] : List Vec3) (([] : List Int).getD 0 0) = some nv ∧
        (Prod.snd (α := Vec3)
            (⟨0, 0, 0⟩, NormalVal.computedN ⟨0, 0, 1⟩)) =
          NormalVal.fromFile nv ∧
        resolveNormal id (Prod.snd (α := Vec3)
          (⟨0, 0, 0⟩, NormalVal.computedN ⟨0, 0, 1⟩)) = nv) ∧
    (¬(([] : List Int) ≠ [] ∧ ([] : List Int).length > 0) →
      ∃ v1 v2 v3,
        pyGet ([⟨0, 0, 0⟩, ⟨1, 0, 0⟩, ⟨0, 1, 0⟩] : List Vec3)
          (([0, 1, 2] : List Int).getD 0 0) = some v1 ∧
        pyGet ([⟨0, 0, 0⟩, ⟨1, 0, 0⟩, ⟨0, 1, 0⟩] : List Vec3)
          (([0, 1, 2] : List Int).getD 1 0) = some v2 ∧
        pyGet ([⟨0, 0, 0⟩, ⟨1, 0, 0⟩, ⟨0, 1, 0⟩] : List Vec3)
          (([0, 1, 2] : List Int).getD (1 + 1) 0) = some v3 ∧
        (Prod.snd (α := Vec3)
            (⟨0, 0, 0⟩, NormalVal.computedN ⟨0, 0, 1⟩)) =
          NormalVal.computedN (Vec3.cross (v2 - v1) (v3 - v1))) ∧
    (∀ c : Vec3, c = 0 →
      resolveNormal id (NormalVal.computedN c) = ⟨0, 1, 0⟩) ∧
    (∀ c : Vec3, c ≠ 0 →
      resolveNormal id (NormalVal.computedN c) = id c) ∧
    (∀ c : Vec3, 0 < Vec3.normSq c ↔ c ≠ 0)) := by
  have hc : processCorner [⟨0, 0, 0⟩, ⟨1, 0, 0⟩, ⟨0, 1, 0⟩] [] [0, 1, 2] [] 1 0 =
      some (⟨0, 0, 0⟩, NormalVal.computedN ⟨0, 0, 1⟩) := by
    norm_num [processCorner, pyGet, List.get?, Vec3.cross, Vec3.sub_def]
  exact ⟨hc, c7_normal_assignment id [⟨0, 0, 0⟩, ⟨1, 0, 0⟩, ⟨0, 1, 0⟩] []
    [0, 1, 2] [] 1 0 (⟨0, 0, 0⟩, NormalVal.computedN ⟨0, 0, 1⟩) hc⟩

/-- The mixed-supply face `f 1 2//1 3` over a unit triangle, with one
file normal record `(9, 9, 9)`. -/
def c7File : List ObjRec :=
  [ObjRec.v ⟨0, 0, 0⟩, ObjRec.v ⟨1, 0, 0⟩, ObjRec.v ⟨0, 1, 0⟩,
   ObjRec.vn ⟨9, 9, 9⟩,
   ObjRec.f [⟨1, none⟩, ⟨2, some 1⟩, ⟨3, none⟩]]

set_option maxHeartbeats 1600000 in
/-- C7 is false as stated: in the face `f 1 2//1 3` the first corner
supplies no normal index, and the triangle's normalized cross product is
exactly `(0, 0, 1)` (the cross product is already a unit vector), yet
the code assigns that corner the file normal `(9, 9, 9)` verbatim —
because the collected index list `[0]` has length `1 > 0` — and computes
the cross-product normal for the other two corners instead. -/
theorem c7_counterexample :
    (processFaces (temp_vertices c7File) (temp_normals c7File)
        (facesOf c7File)).map (fun ps => ps.map Prod.snd) =
      some [NormalVal.fromFile ⟨9, 9, 9⟩, NormalVal.computedN ⟨0, 0, 1⟩,
        NormalVal.computedN ⟨0, 0, 1⟩] ∧
    (∀ nrm : Vec3 → Vec3,
      resolveNormal nrm (NormalVal.fromFile ⟨9, 9, 9⟩) = ⟨9, 9, 9⟩) ∧
    Vec3.normSq (⟨0, 0, 1⟩ : Vec3) = 1 ∧
    (⟨9, 9, 9⟩ : Vec3) ≠ ⟨0, 0, 1⟩ := by
  refine ⟨?_, fun nrm => rfl, by norm_num [Vec3.normSq], by
    intro h
    have := congrArg Vec3.x h
    norm_num at this⟩
  norm_num [processFaces, processFace, processCorner, optMap, fanCorners,
    temp_vertices, temp_normals, facesOf, c7File, pyGet, List.get?,
    List.filterMap, Vec3.cross, Vec3.sub_def, List.range']

/-! ## Index conversion and range behavior (C9) -/

/-- The file `f 5 1 2` over three vertices: converted index 4 is out of
range, the lookup raises, and no mesh is produced. -/
def c9OobFile : List ObjRec :=
  [ObjRec.v ⟨0, 0, 0⟩, ObjRec.v ⟨1, 0, 0⟩, ObjRec.v ⟨0, 1, 0⟩,
   ObjRec.f [⟨5, none⟩, ⟨1, none⟩, ⟨2, none⟩]]

set_option maxHeartbeats 1600000 in
/-- C9 (amended): face indices are converted from 1-based to 0-based by
subtracting 1; a converted index `i` fails the lookup — a Python
`IndexError`, hence a parse failure with no mesh — exactly when
`i ≥ len` or `i < -len` over the records collected from the whole file,
while converted indices in `[-len, 0)` (file indices `≤ 0`, e.g. the
file index `0`) silently wrap around from the end of the record list
instead of failing; a face index beyond the table does abort the whole
ingestion. -/
theorem c9_index_conversion (cs : List FaceCorner) (l : List Vec3)
    (i : Int) :
    facesOf [ObjRec.f cs] = [(cs.map (fun c => c.vi - 1),
      (cs.filterMap (fun c => c.ni)).map (fun n => n - 1))] ∧
    (pyGet l i = none ↔
      ((l.length : Int) ≤ i ∨ i < -(l.length : Int))) ∧
    ingest c9OobFile = none := by
  refine ⟨by simp [facesOf], ?_, ?_⟩
  · unfold pyGet
    split_ifs with h1 h2
    · rw [List.get?_eq_none]
      omega
    · rw [List.get?_eq_none]
      omega
    · constructor
      · intro _
        omega
      · intro _
        rfl
  · norm_num [ingest, processFaces, processFace, processCorner, optMap,
      fanCorners, temp_vertices, temp_normals, facesOf, c9OobFile, pyGet,
      List.get?, List.filterMap, List.range']

/-- The file `f 0 1 2` over three vertices: the file index `0` converts
to `-1`, which Python indexing resolves to the LAST vertex. -/
def c9WrapFile : List ObjRec :=
  [ObjRec.v ⟨0, 0, 0⟩, ObjRec.v ⟨1, 0, 0⟩, ObjRec.v ⟨0, 1, 0⟩,
   ObjRec.f [⟨0, none⟩, ⟨1, none⟩, ⟨2, none⟩]]

set_option maxHeartbeats 1600000 in
/-- C9 is false as stated: the claim requires any face index less than 1
to fail parsing with no mesh produced, but the file `f 0 1 2` over three
vertices parses successfully — index 0 becomes Python index `-1`, which
wraps to the LAST vertex `(0, 1, 0)` — and a full mesh is produced. -/
theorem c9_counterexample :
    (ingest c9WrapFile).isSome = true ∧
    (processFaces (temp_vertices c9WrapFile) (temp_normals c9WrapFile)
        (facesOf c9WrapFile)).map (fun ps => ps.map Prod.fst) =
      some [⟨0, 1, 0⟩, ⟨0, 0, 0⟩, ⟨1, 0, 0⟩] := by
  constructor
  · norm_num [ingest, processFaces, processFace, processCorner, optMap,
      fanCorners, temp_vertices, temp_normals, facesOf, c9WrapFile, pyGet,
      List.get?, List.filterMap, normalizeVerts, listMax, listMin, xsOf,
      ysOf, zsOf, bboxCenter, maxSize, scaleOf, Vec3.cross, Vec3.sub_def,
      Vec3.smul_def, max_def, min_def, List.range']
    simp
  · norm_num [processFaces, processFace, processCorner, optMap,
      fanCorners, temp_vertices, temp_normals, facesOf, c9WrapFile, pyGet,
      List.get?, List.filterMap, Vec3.cross, Vec3.sub_def, List.range']

/-! ## GL buffer lifecycle and model loading
(`Viewport.cleanup`, `Viewport.create_buffers`, `Viewport.load_obj`,
`Viewport.load_model`, `model_loader.cleanup_existing_buffers`) -/

/-- The `Viewport` attributes touched by the load/cleanup path, plus an
instrumentation field `freed` recording, in order, every GL buffer name
the code passes to `glDeleteBuffers`. -/
structure VState where
  vbo_vertices : Option Nat
  vbo_normals : Option Nat
  vertex_count : Nat
  model_loaded : Bool
  current_model_path : Option String
  model_vertices : List Vec3
  model_normals : List Vec3
  freed : List Nat
deriving DecidableEq, Repr

/-- `Viewport.cleanup`: delete each buffer that `is not None` and null
it, zero `vertex_count`, clear `model_loaded`.  `current_model_path`,
`model_vertices` and `model_normals` are untouched. -/
def cleanup (s : VState) : VState :=
  { s with
    vbo_vertices := none,
    vbo_normals := none,
    vertex_count := 0,
    model_loaded := false,
    freed := (s.freed ++
      (match s.vbo_vertices with | some h => [h] | none => [])) ++
      (match s.vbo_normals with | some h => [h] | none => []) }

/-- `Viewport.create_buffers`: delete existing buffers via `cleanup`,
then generate two buffer names (modelled as the parameters `fresh1`,
`fresh2`, the values `glGenBuffers` writes); the call reports failure
(`return False`) when either generated name is 0. -/
def create_buffers (fresh1 fresh2 : Nat) (s : VState) : Bool × VState :=
  let s1 := cleanup s
  (fresh1 != 0 && fresh2 != 0,
    { s1 with vbo_vertices := some fresh1, vbo_normals := some fresh2 })

/-- Python `file_path.lower().endswith(ext)`, on the path's character
list. -/
def lowerEndsWith (path : String) (ext : List Char) : Bool :=
  (path.data.map Char.toLower).reverse.take ext.length == ext.reverse

def objExt : List Char := ['.', 'o', 'b', 'j']

def fbxExt : List Char := ['.', 'f', 'b', 'x']

/-- `Viewport.load_obj` as a state transition; the `Bool` is `false`
when the body raises (the `except` clause has already run `cleanup` and
re-raised).  Stages in source order: read/triangulate the file
(`processFaces`), `create_buffers` (raises `RuntimeError` on `False`),
numpy conversion and center/scale (`normalizeVerts`; raises on empty),
then the state updates of the success path. -/
def load_obj (nrm : Vec3 → Vec3) (path : String) (file : List ObjRec)
    (fresh1 fresh2 : Nat) (s : VState) : Bool × VState :=
  match processFaces (temp_vertices file) (temp_normals file)
      (facesOf file) with
  | none => (false, cleanup s)
  | some pairs =>
    let res := create_buffers fresh1 fresh2 s
    if res.1 = false then (false, cleanup res.2)
    else
      match normalizeVerts (pairs.map Prod.fst) with
      | none => (false, cleanup res.2)
      | some verts =>
          (true, { res.2 with
            model_vertices := verts,
            model_normals := (pairs.map Prod.snd).map (resolveNormal nrm),
            vertex_count := verts.length,
            model_loaded := true,
            current_model_path := some path })

/-- `Viewport.load_model`: `cleanup` runs FIRST, before the extension
dispatch and the parse; `.obj` goes through `load_obj` (on an exception
the handler sets `current_model_path = None`); `.fbx` warns and returns
(the old scene is already gone); any other extension falls through and
merely sets `model_loaded = True`. -/
def load_model (nrm : Vec3 → Vec3) (path : String) (file : List ObjRec)
    (fresh1 fresh2 : Nat) (s : VState) : VState :=
  let s1 := cleanup s
  if lowerEndsWith path objExt = true then
    match load_obj nrm path file fresh1 fresh2 s1 with
    | (true, s2) =>
        { s2 with current_model_path := some path, model_loaded := true }
    | (false, s2) => { s2 with current_model_path := none }
  else if lowerEndsWith path fbxExt = true then s1
  else { s1 with model_loaded := true }

/-- C1 (amended): on a parse failure `load_model` does NOT leave the
scene unchanged — it has already destroyed the old scene before
parsing.  The final state has no GPU buffers, `vertex_count = 0`,
`model_loaded = False` and `current_model_path = None`; only the stale
CPU-side `model_vertices`/`model_normals` arrays survive (unreachable
for rendering, since `model_loaded` is false). -/
theorem c1_parse_failure_clears_scene (nrm : Vec3 → Vec3) (path : String)
    (file : List ObjRec) (fresh1 fresh2 : Nat) (s : VState)
    (hobj : lowerEndsWith path objExt = true)
    (hfail : ingest file = none) :
    (load_model nrm path file fresh1 fresh2 s).model_loaded = false ∧
    (load_model nrm path file fresh1 fresh2 s).vertex_count = 0 ∧
    (load_model nrm path file fresh1 fresh2 s).vbo_vertices = none ∧
    (load_model nrm path file fresh1 fresh2 s).vbo_normals = none ∧
    (load_model nrm path file fresh1 fresh2 s).current_model_path = none ∧
    (load_model nrm path file fresh1 fresh2 s).model_vertices =
      s.model_vertices ∧
    (load_model nrm path file fresh1 fresh2 s).model_normals =
      s.model_normals := by
  unfold load_model
  rw [if_pos hobj]
  unfold ingest at hfail
  unfold load_obj
  cases hpf : processFaces (temp_vertices file) (temp_normals file)
      (facesOf file) with
  | none => simp [cleanup]
  | some pairs =>
      rw [hpf] at hfail
      dsimp only at hfail
      cases hnv : normalizeVerts (pairs.map Prod.fst) with
      | none =>
          by_cases hb : (create_buffers fresh1 fresh2 (cleanup s)).1 = false <;>
            simp [hb, hnv, cleanup, create_buffers]
      | some verts => rw [hnv] at hfail; simp at hfail

/-- Witness for C1 (amended): the empty file (no vertex records) on a
scene holding a loaded cube. -/
theorem c1_parse_failure_clears_scene_witness :
    lowerEndsWith "model.obj" objExt = true ∧
    ingest ([] : List ObjRec) = none ∧
    ((load_model id "model.obj" [] 9 10
        ⟨some 7, some 8, 36, true, some "cube.obj", [⟨0, 0, 0⟩],
          [⟨0, 1, 0⟩], []⟩).model_loaded = false ∧
      (load_model id "model.obj" [] 9 10
        ⟨some 7, some 8, 36, true, some "cube.obj", [⟨0, 0, 0⟩],
          [⟨0, 1, 0⟩], []⟩).vertex_count = 0 ∧
      (load_model id "model.obj" [] 9 10
        ⟨some 7, some 8, 36, true, some "cube.obj", [⟨0, 0, 0⟩],
          [⟨0, 1, 0⟩], []⟩).vbo_vertices = none ∧
      (load_model id "model.obj" [] 9 10
        ⟨some 7, some 8, 36, true, some "cube.obj", [⟨0, 0, 0⟩],
          [⟨0, 1, 0⟩], []⟩).vbo_normals = none ∧
      (load_model id "model.obj" [] 9 10
        ⟨some 7, some 8, 36, true, some "cube.obj", [⟨0, 0, 0⟩],
          [⟨0, 1, 0⟩], []⟩).current_model_path = none ∧
      (load_model id "model.obj" [] 9 10
        ⟨some 7, some 8, 36, true, some "cube.obj", [⟨0, 0, 0⟩],
          [⟨0, 1, 0⟩], []⟩).model_vertices =
        (⟨some 7, some 8, 36, true, some "cube.obj", [⟨0, 0, 0⟩],
          [⟨0, 1, 0⟩], []⟩ : VState).model_vertices ∧
      (load_model id "model.obj" [] 9 10
        ⟨some 7, some 8, 36, true, some "cube.obj", [⟨0, 0, 0⟩],
          [⟨0, 1, 0⟩], []⟩).model_normals =
        (⟨some 7, some 8, 36, true, some "cube.obj", [⟨0, 0, 0⟩],
          [⟨0, 1, 0⟩], []⟩ : VState).model_normals) := by
  have h1 : lowerEndsWith "model.obj" objExt = true := by decide
  have h2 : ingest ([] : List ObjRec) = none := by
    norm_num [ingest, processFaces, processFace, optMap, temp_vertices,
      temp_normals, facesOf, normalizeVerts]
  exact ⟨h1, h2, c1_parse_failure_clears_scene id "model.obj" [] 9 10
    ⟨some 7, some 8, 36, true, some "cube.obj", [⟨0, 0, 0⟩],
      [⟨0, 1, 0⟩], []⟩ h1 h2⟩

/-- The scene before the C1 counterexample: a loaded mesh with live
buffers 7 and 8 and a stored model path. -/
def c1State0 : VState :=
  ⟨some 7, some 8, 36, true, some "cube.obj", [⟨0, 0, 0⟩], [⟨0, 1, 0⟩], []⟩

/-- C1 is false as stated: loading an empty `.obj` file (a parse
failure — numpy raises on the empty vertex array) over a scene with a
loaded mesh does NOT leave the scene state identical to the state
before the call; the old buffers are deleted, `model_loaded` flips to
`False`, `vertex_count` drops to 0 and the stored model path is
cleared. -/
theorem c1_counterexample :
    load_model id "model.obj" [] 9 10 c1State0 ≠ c1State0 ∧
    (load_model id "model.obj" [] 9 10 c1State0).model_loaded = false ∧
    c1State0.model_loaded = true ∧
    (load_model id "model.obj" [] 9 10 c1State0).current_model_path
      = none ∧
    c1State0.current_model_path = some "cube.obj" := by
  have h1 : lowerEndsWith "model.obj" objExt = true := by decide
  have hload : load_model id "model.obj" [] 9 10 c1State0 =
      ⟨none, none, 0, false, none, [⟨0, 0, 0⟩], [⟨0, 1, 0⟩], [7, 8, 9, 10]⟩ := by
    rw [load_model, if_pos h1]
    norm_num [load_obj, create_buffers, cleanup, c1State0, processFaces,
      processFace, optMap, temp_vertices, temp_normals, facesOf,
      normalizeVerts]
  rw [hload]
  refine ⟨?_, rfl, rfl, rfl, rfl⟩
  intro h
  have := congrArg VState.model_loaded h
  simp [c1State0] at this

/-- The `model_loader` attributes touched by
`cleanup_existing_buffers`: `hasattr(self, a) and self.a is not None`
is modelled as an `Option`, plus instrumentation logs of the GL names
passed to `glDeleteBuffers` / `glDeleteVertexArrays` /
`glDeleteTextures`. -/
structure LoaderState where
  vbo : Option Nat
  vao : Option Nat
  texture : Option Nat
  freed_buffers : List Nat
  freed_arrays : List Nat
  freed_textures : List Nat
deriving DecidableEq, Repr

/-- `model_loader.cleanup_existing_buffers`: delete and null `vbo`,
`vao` and `texture`, each only when present and not `None`. -/
def cleanup_existing_buffers (s : LoaderState) : LoaderState :=
  let s1 :=
    match s.vbo with
    | some h =>
        { s with
          vbo := none,
          freed_buffers := s.freed_buffers ++ [h] }
    | none => s
  let s2 :=
    match s1.vao with
    | some h =>
        { s1 with
          vao := none,
          freed_arrays := s1.freed_arrays ++ [h] }
    | none => s1
  match s2.texture with
  | some h =>
      { s2 with
        texture := none,
        freed_textures := s2.freed_textures ++ [h] }
  | none => s2

/-- C8: buffer release is idempotent.  `Viewport.cleanup` applied twice
equals `Viewport.cleanup` applied once — in particular the second call
deletes no GL name (`freed` is unchanged, no double free) — releasing a
never-allocated buffer is a no-op on the handles and deletes nothing,
and the same holds for `model_loader.cleanup_existing_buffers`. -/
theorem c8_release_idempotent :
    (∀ s : VState, cleanup (cleanup s) = cleanup s) ∧
    (∀ s : VState, (cleanup (cleanup s)).freed = (cleanup s).freed) ∧
    (∀ vc ml path mv mn fr,
      cleanup ⟨none, none, vc, ml, path, mv, mn, fr⟩ =
        ⟨none, none, 0, false, path, mv, mn, fr⟩) ∧
    (∀ s : LoaderState,
      cleanup_existing_buffers (cleanup_existing_buffers s) =
        cleanup_existing_buffers s) := by
  refine ⟨?_, ?_, ?_, ?_⟩
  · intro s
    cases s
    simp [cleanup]
  · intro s
    cases s
    simp [cleanup]
  · intro vc ml path mv mn fr
    simp [cleanup]
  · intro s
    cases s with
    | mk vbo vao tex fb fa ft =>
        cases vbo <;> cases vao <;> cases tex <;>
          simp [cleanup_existing_buffers]

end Aero
